import Mathlib

/-!
Verification development for a small Pong-like game (single Rust source file).
Positions, velocities and time stamps are modelled as rationals; the wall clock
is passed explicitly to `update` as the parameter `now`.  The pixel buffer is
modelled as a length together with an index-to-color function; a raw indexed
write is fallible (`Option`), mirroring the panic of an out-of-range slice
write, and the renderer guards every write by an index check exactly as the
source does.
-/

namespace Pong

/-- WINDOW_WIDTH (800). -/
def windowWidth : ℕ := 800

/-- WINDOW_HEIGHT (600). -/
def windowHeight : ℕ := 600

/-- WINDOW_WIDTH as a rational coordinate (800.0). -/
def windowWidthF : ℚ := 800

/-- WINDOW_HEIGHT as a rational coordinate (600.0). -/
def windowHeightF : ℚ := 600

/-- PAUSE_DURATION, two seconds. -/
def pauseDuration : ℚ := 2

/-- Mirrors `struct GameObject`: an axis-aligned rectangle body. -/
structure GameObject where
  x : ℚ
  y : ℚ
  width : ℚ
  height : ℚ
  velX : ℚ
  velY : ℚ
  deriving DecidableEq, Repr

/-- Mirrors `struct Game` minus the window handle; `lastFrameTime` is the
recorded instant of the last processed frame. -/
structure Game where
  ball : GameObject
  paddle : GameObject
  lastFrameTime : ℚ
  gameIsRunning : Bool
  lives : ℤ
  score : ℤ
  isPaused : Bool
  pauseStart : Option ℚ
  ballResetPending : Bool
  deriving DecidableEq, Repr

/-- Mirrors `Game::new` (window construction aside); `t0` is the construction
instant recorded into `last_frame_time`. -/
def initGame (t0 : ℚ) : Game :=
  { ball := { x := 20, y := 20, width := 15, height := 15, velX := 300, velY := 300 }
    paddle := { x := windowWidthF / 2 - 50, y := windowHeightF - 40,
                width := 100, height := 20, velX := 0, velY := 0 }
    lastFrameTime := t0
    gameIsRunning := true
    lives := 3
    score := 0
    isPaused := false
    pauseStart := none
    ballResetPending := false }

/-- Mirrors `Game::process_input`; the three booleans are the sampled key
states of Escape, Left and Right. -/
def process_input (g : Game) (escKey leftKey rightKey : Bool) : Game :=
  let g1 := if escKey then { g with gameIsRunning := false } else g
  if g1.isPaused then g1
  else if leftKey then { g1 with paddle := { g1.paddle with velX := -400 } }
  else if rightKey then { g1 with paddle := { g1.paddle with velX := 400 } }
  else { g1 with paddle := { g1.paddle with velX := 0 } }

/-- Mirrors `Game::reset_ball`. -/
def reset_ball (g : Game) : Game :=
  { g with ball := { g.ball with
      x := windowWidthF / 2 - g.ball.width / 2
      y := windowHeightF / 2 - g.ball.height / 2
      velX := 300
      velY := 300 } }

/-- Position integration (`update` lines: `position += velocity * delta_time`),
ball on both axes, paddle on x only. -/
def integrate (g : Game) (dt : ℚ) : Game :=
  { g with
    ball := { g.ball with
      x := g.ball.x + g.ball.velX * dt
      y := g.ball.y + g.ball.velY * dt }
    paddle := { g.paddle with x := g.paddle.x + g.paddle.velX * dt } }

/-- Ball-wall collision section of `Game::update`. -/
def wallCollide (g : Game) : Game :=
  let b1 := if g.ball.x ≤ 0 ∨ g.ball.x + g.ball.width ≥ windowWidthF
            then { g.ball with velX := -g.ball.velX } else g.ball
  let b2 := if b1.y ≤ 0 then { b1 with velY := -b1.velY } else b1
  { g with ball := b2 }

/-- The ball-paddle overlap condition of `Game::update`: ball bottom edge at or
below the paddle top edge, and horizontal spans overlapping (inclusive). -/
def paddleHit (g : Game) : Prop :=
  g.ball.y + g.ball.height ≥ g.paddle.y
    ∧ g.ball.x + g.ball.width ≥ g.paddle.x
    ∧ g.ball.x ≤ g.paddle.x + g.paddle.width

instance (g : Game) : Decidable (paddleHit g) := by
  unfold paddleHit; infer_instance

/-- Ball-paddle collision section of `Game::update`. -/
def paddleCollide (g : Game) : Game :=
  if paddleHit g then
    { g with ball := { g.ball with velY := -g.ball.velY }, score := g.score + 1 }
  else g

/-- Paddle boundary clamp section of `Game::update`. -/
def clampPaddle (g : Game) : Game :=
  let p1 := if g.paddle.x ≤ 0 then { g.paddle with x := 0 } else g.paddle
  let p2 := if p1.x ≥ windowWidthF - p1.width
            then { p1 with x := windowWidthF - p1.width } else p1
  { g with paddle := p2 }

/-- Life-loss section of `Game::update`; `now` is the instant recorded into
`pause_start` on the pausing branch. -/
def lifeLoss (g : Game) (now : ℚ) : Game :=
  if g.ball.y + g.ball.height > windowHeightF then
    let lives := g.lives - 1
    if lives > 0 then
      { g with
        lives := lives
        isPaused := true
        pauseStart := some now
        ball := { g.ball with
          x := windowWidthF / 2 - g.ball.width / 2
          y := windowHeightF / 2 - g.ball.height / 2
          velX := 0
          velY := 0 } }
    else
      { g with lives := lives, gameIsRunning := false }
  else g

/-- The physics part of `Game::update` (delta-time computation, integration,
collisions, clamp, life-loss), entered when no early return fired. -/
def updatePhysics (g : Game) (now : ℚ) : Game :=
  let dt := now - g.lastFrameTime
  lifeLoss (clampPaddle (paddleCollide (wallCollide
    (integrate { g with lastFrameTime := now } dt)))) now

/-- The part of `Game::update` from the `ball_reset_pending` check on. -/
def updateRest (g : Game) (now : ℚ) : Game :=
  if g.ballResetPending then
    { g with ballResetPending := false, lastFrameTime := now }
  else
    updatePhysics g now

/-- Mirrors `Game::update`; `now` stands for every `Instant::now()` taken
during the call. -/
def update (g : Game) (now : ℚ) : Game :=
  if g.isPaused then
    match g.pauseStart with
    | some start =>
      if now - start ≥ pauseDuration then
        updateRest (reset_ball
          { g with isPaused := false, pauseStart := none, ballResetPending := true }) now
      else g
    | none => updateRest g now
  else updateRest g now

/-- Iterated calls to `update` at the given schedule of instants, as the main
loop performs once per frame. -/
def iterUpdate (g : Game) (t : ℕ → ℚ) : ℕ → Game
  | 0 => g
  | n + 1 => update (iterUpdate g t n) (t n)

/-- Rust `f32 as usize` on the rational model: truncation toward zero with
saturation at zero for negative values. -/
def ratToUsize (q : ℚ) : ℕ := (Int.floor q).toNat

/-- The pixel buffer: a fixed length and the color stored at each index. -/
structure Buffer where
  len : ℕ
  data : ℕ → ℕ

/-- The buffer allocated in `main`: `vec![0; WINDOW_WIDTH * WINDOW_HEIGHT]`. -/
def initBuffer : Buffer := ⟨windowWidth * windowHeight, fun _ => 0⟩

/-- An unguarded indexed write `buffer[index] = v`, which fails (panics)
out of range. -/
def setBuf (b : Buffer) (i v : ℕ) : Option Buffer :=
  if i < b.len then some ⟨b.len, fun j => if j = i then v else b.data j⟩ else none

/-- The guarded write of `Game::render`:
`if index < buffer.len() { buffer[index] = 0xFFFFFFFF; }`. -/
def guardedWrite (b : Buffer) (i : ℕ) : Option Buffer :=
  if i < b.len then setBuf b i 0xFFFFFFFF else some b

/-- The clear loop of `Game::render`: every cell set to 0. -/
def clearBuffer (b : Buffer) : Buffer := ⟨b.len, fun _ => 0⟩

/-- One rectangle-rasterizing double loop of `Game::render`:
`for y in 0..h { for x in 0..w { ... (y0+y)*WINDOW_WIDTH + (x0+x) ... } }`. -/
def renderRect (x0 y0 w h : ℕ) (b : Buffer) : Option Buffer :=
  (List.range h).foldl (fun ob y =>
    (List.range w).foldl (fun ob2 x =>
      ob2.bind (fun bu => guardedWrite bu ((y0 + y) * windowWidth + (x0 + x)))) ob)
    (some b)

/-- Mirrors `Game::render` up to the presentation call: clear, rasterize the
ball, rasterize the paddle. -/
def render (g : Game) (b : Buffer) : Option Buffer :=
  let cleared := clearBuffer b
  (renderRect (ratToUsize g.ball.x) (ratToUsize g.ball.y)
      (ratToUsize g.ball.width) (ratToUsize g.ball.height) cleared).bind
    (renderRect (ratToUsize g.paddle.x) (ratToUsize g.paddle.y)
      (ratToUsize g.paddle.width) (ratToUsize g.paddle.height))

/-- States reachable from a freshly constructed game by any interleaving of
input sampling and update calls. -/
inductive Reachable : Game → Prop
  | init (t0 : ℚ) : Reachable (initGame t0)
  | input (g : Game) (escKey leftKey rightKey : Bool) :
      Reachable g → Reachable (process_input g escKey leftKey rightKey)
  | upd (g : Game) (now : ℚ) : Reachable g → Reachable (update g now)

/-- The pause flag and the pause-start timestamp agree: the flag is set exactly
when a timestamp is present. -/
def pauseInv (g : Game) : Prop :=
  g.isPaused = true ↔ g.pauseStart.isSome = true

/-- The game state right after the integration step of an update call made at
instant `now` (delta time is `now` minus the recorded last frame time). -/
def integratedState (g : Game) (now : ℚ) : Game :=
  integrate { g with lastFrameTime := now } (now - g.lastFrameTime)

/-- The physics pipeline of `Game::update` up to (but excluding) the life-loss
check. -/
def physicsPipeline (g : Game) (now : ℚ) : Game :=
  clampPaddle (paddleCollide (wallCollide (integratedState g now)))

/-- An update call made at instant `now` from state `g` reaches the physics
phase and finds the ball overlapping the paddle after integration. -/
def overlapFrame (g : Game) (now : ℚ) : Prop :=
  g.isPaused = false ∧ g.ballResetPending = false ∧ paddleHit (integratedState g now)

instance (g : Game) (now : ℚ) : Decidable (overlapFrame g now) := by
  unfold overlapFrame; infer_instance

/-- Total version of `guardedWrite`: an out-of-range index is skipped. -/
def guardedWriteT (b : Buffer) (i : ℕ) : Buffer :=
  if i < b.len then ⟨b.len, fun j => if j = i then 0xFFFFFFFF else b.data j⟩ else b

/-- Total version of the inner `for x` loop of a rectangle rasterization. -/
def writeRowT (x0 y0 w y : ℕ) (b : Buffer) : Buffer :=
  (List.range w).foldl (fun bu x => guardedWriteT bu ((y0 + y) * windowWidth + (x0 + x))) b

/-- Total version of `renderRect`. -/
def renderRectT (x0 y0 w h : ℕ) (b : Buffer) : Buffer :=
  (List.range h).foldl (fun bu y => writeRowT x0 y0 w y bu) b

/-- Total version of `render`. -/
def renderT (g : Game) (b : Buffer) : Buffer :=
  renderRectT (ratToUsize g.paddle.x) (ratToUsize g.paddle.y)
    (ratToUsize g.paddle.width) (ratToUsize g.paddle.height)
    (renderRectT (ratToUsize g.ball.x) (ratToUsize g.ball.y)
      (ratToUsize g.ball.width) (ratToUsize g.ball.height) (clearBuffer b))

/-- Index `j` is touched by row `y` of the rectangle rasterization loop with
truncated origin `(x0, y0)` and width `w`. -/
def hitRow (x0 y0 y w j : ℕ) : Prop :=
  (y0 + y) * windowWidth + x0 ≤ j ∧ j < (y0 + y) * windowWidth + x0 + w

instance (x0 y0 y w j : ℕ) : Decidable (hitRow x0 y0 y w j) := by
  unfold hitRow; infer_instance

/-- Index `j` is touched by some row of the rectangle rasterization loop. -/
def hitRect (x0 y0 w h j : ℕ) : Prop :=
  ∃ y, y < h ∧ hitRow x0 y0 y w j

instance (x0 y0 w h j : ℕ) : Decidable (hitRect x0 y0 w h j) :=
  decidable_of_iff (∃ y ∈ List.range h, hitRow x0 y0 y w j)
    (by simp [hitRect, List.mem_range])

/-- Pixel (row `r`, column `c`) lies inside the integer-truncated bounds of
the body `o`. -/
def pixInRect (o : GameObject) (r c : ℕ) : Prop :=
  ratToUsize o.y ≤ r ∧ r < ratToUsize o.y + ratToUsize o.height ∧
  ratToUsize o.x ≤ c ∧ c < ratToUsize o.x + ratToUsize o.width

instance (o : GameObject) (r c : ℕ) : Decidable (pixInRect o r c) := by
  unfold pixInRect; infer_instance

/-- Concrete state for exercising the life-loss transition: two lives left and
the ball resting on the bottom edge. -/
def c1Game : Game :=
  { initGame 0 with
    ball := { x := 400, y := 600, width := 15, height := 15, velX := 0, velY := 0 }
    lives := 2 }

/-- Concrete state for exercising pause expiry: paused since instant 0. -/
def c2Game : Game := { initGame 0 with isPaused := true, pauseStart := some 0 }

/-- Concrete state with the ball overlapping the paddle and not falling out. -/
def c3Game : Game :=
  { initGame 0 with
    ball := { x := 400, y := 550, width := 15, height := 15, velX := 0, velY := 0 } }

/-- Concrete state with the ball exactly flush with the left wall. -/
def c4Game : Game :=
  { initGame 0 with
    ball := { x := 0, y := 300, width := 15, height := 15, velX := 300, velY := 0 } }

/-- Concrete state with the paddle protruding past the left boundary. -/
def c5Game : Game :=
  { initGame 0 with
    paddle := { x := -5, y := 560, width := 100, height := 20, velX := 0, velY := 0 } }

/-- Concrete state paused since instant 0 (used with an unexpired call). -/
def c6Game : Game := { initGame 0 with isPaused := true, pauseStart := some 0 }

/-- Concrete paused state for the input-priority check. -/
def c8Game : Game := { initGame 0 with isPaused := true, pauseStart := some 0 }

/-- Concrete state whose ball rectangle sticks out past the right viewport
edge, so its rasterization writes wrap into the next row. -/
def c7Game : Game :=
  { initGame 0 with
    ball := { x := 793, y := 0, width := 15, height := 15, velX := 0, velY := 0 } }

/-! ### Helper lemmas about the update phases -/

attribute [local semireducible] Rat.add Rat.sub Rat.mul Rat.inv Rat.ofScientific

@[simp] lemma wallCollide_paddle (g : Game) : (wallCollide g).paddle = g.paddle := by
  simp only [wallCollide]; repeat' (first | rfl | split)

@[simp] lemma wallCollide_ball_x (g : Game) : (wallCollide g).ball.x = g.ball.x := by
  simp only [wallCollide]; repeat' (first | rfl | split)

@[simp] lemma wallCollide_ball_y (g : Game) : (wallCollide g).ball.y = g.ball.y := by
  simp only [wallCollide]; repeat' (first | rfl | split)

@[simp] lemma wallCollide_ball_width (g : Game) :
    (wallCollide g).ball.width = g.ball.width := by
  simp only [wallCollide]; repeat' (first | rfl | split)

@[simp] lemma wallCollide_ball_height (g : Game) :
    (wallCollide g).ball.height = g.ball.height := by
  simp only [wallCollide]; repeat' (first | rfl | split)

@[simp] lemma wallCollide_score (g : Game) : (wallCollide g).score = g.score := by
  simp only [wallCollide]; repeat' (first | rfl | split)

@[simp] lemma wallCollide_lives (g : Game) : (wallCollide g).lives = g.lives := by
  simp only [wallCollide]; repeat' (first | rfl | split)

@[simp] lemma wallCollide_isPaused (g : Game) : (wallCollide g).isPaused = g.isPaused := by
  simp only [wallCollide]; repeat' (first | rfl | split)

@[simp] lemma wallCollide_pauseStart (g : Game) :
    (wallCollide g).pauseStart = g.pauseStart := by
  simp only [wallCollide]; repeat' (first | rfl | split)

@[simp] lemma wallCollide_gameIsRunning (g : Game) :
    (wallCollide g).gameIsRunning = g.gameIsRunning := by
  simp only [wallCollide]; repeat' (first | rfl | split)

@[simp] lemma wallCollide_ballResetPending (g : Game) :
    (wallCollide g).ballResetPending = g.ballResetPending := by
  simp only [wallCollide]; repeat' (first | rfl | split)

@[simp] lemma wallCollide_lastFrameTime (g : Game) :
    (wallCollide g).lastFrameTime = g.lastFrameTime := by
  simp only [wallCollide]; repeat' (first | rfl | split)

lemma wallCollide_velX (g : Game) :
    (wallCollide g).ball.velX =
      if g.ball.x ≤ 0 ∨ g.ball.x + g.ball.width ≥ windowWidthF
      then -g.ball.velX else g.ball.velX := by
  simp only [wallCollide]; repeat' (first | rfl | split)

lemma wallCollide_velY (g : Game) :
    (wallCollide g).ball.velY =
      if g.ball.y ≤ 0 then -g.ball.velY else g.ball.velY := by
  simp only [wallCollide]; repeat' (first | rfl | split)

@[simp] lemma paddleCollide_paddle (g : Game) : (paddleCollide g).paddle = g.paddle := by
  simp only [paddleCollide]; repeat' (first | rfl | split)

@[simp] lemma paddleCollide_ball_x (g : Game) : (paddleCollide g).ball.x = g.ball.x := by
  simp only [paddleCollide]; repeat' (first | rfl | split)

@[simp] lemma paddleCollide_ball_y (g : Game) : (paddleCollide g).ball.y = g.ball.y := by
  simp only [paddleCollide]; repeat' (first | rfl | split)

@[simp] lemma paddleCollide_ball_width (g : Game) :
    (paddleCollide g).ball.width = g.ball.width := by
  simp only [paddleCollide]; repeat' (first | rfl | split)

@[simp] lemma paddleCollide_ball_height (g : Game) :
    (paddleCollide g).ball.height = g.ball.height := by
  simp only [paddleCollide]; repeat' (first | rfl | split)

@[simp] lemma paddleCollide_ball_velX (g : Game) :
    (paddleCollide g).ball.velX = g.ball.velX := by
  simp only [paddleCollide]; repeat' (first | rfl | split)

@[simp] lemma paddleCollide_lives (g : Game) : (paddleCollide g).lives = g.lives := by
  simp only [paddleCollide]; repeat' (first | rfl | split)

@[simp] lemma paddleCollide_isPaused (g : Game) :
    (paddleCollide g).isPaused = g.isPaused := by
  simp only [paddleCollide]; repeat' (first | rfl | split)

@[simp] lemma paddleCollide_pauseStart (g : Game) :
    (paddleCollide g).pauseStart = g.pauseStart := by
  simp only [paddleCollide]; repeat' (first | rfl | split)

@[simp] lemma paddleCollide_gameIsRunning (g : Game) :
    (paddleCollide g).gameIsRunning = g.gameIsRunning := by
  simp only [paddleCollide]; repeat' (first | rfl | split)

@[simp] lemma paddleCollide_ballResetPending (g : Game) :
    (paddleCollide g).ballResetPending = g.ballResetPending := by
  simp only [paddleCollide]; repeat' (first | rfl | split)

@[simp] lemma paddleCollide_lastFrameTime (g : Game) :
    (paddleCollide g).lastFrameTime = g.lastFrameTime := by
  simp only [paddleCollide]; repeat' (first | rfl | split)

lemma paddleCollide_score (g : Game) :
    (paddleCollide g).score = if paddleHit g then g.score + 1 else g.score := by
  simp only [paddleCollide]; repeat' (first | rfl | split)

lemma paddleCollide_velY (g : Game) :
    (paddleCollide g).ball.velY =
      if paddleHit g then -g.ball.velY else g.ball.velY := by
  simp only [paddleCollide]; repeat' (first | rfl | split)

@[simp] lemma clampPaddle_ball (g : Game) : (clampPaddle g).ball = g.ball := by
  simp only [clampPaddle]; repeat' (first | rfl | split)

@[simp] lemma clampPaddle_score (g : Game) : (clampPaddle g).score = g.score := by
  simp only [clampPaddle]; repeat' (first | rfl | split)

@[simp] lemma clampPaddle_lives (g : Game) : (clampPaddle g).lives = g.lives := by
  simp only [clampPaddle]; repeat' (first | rfl | split)

@[simp] lemma clampPaddle_isPaused (g : Game) :
    (clampPaddle g).isPaused = g.isPaused := by
  simp only [clampPaddle]; repeat' (first | rfl | split)

@[simp] lemma clampPaddle_pauseStart (g : Game) :
    (clampPaddle g).pauseStart = g.pauseStart := by
  simp only [clampPaddle]; repeat' (first | rfl | split)

@[simp] lemma clampPaddle_gameIsRunning (g : Game) :
    (clampPaddle g).gameIsRunning = g.gameIsRunning := by
  simp only [clampPaddle]; repeat' (first | rfl | split)

@[simp] lemma clampPaddle_ballResetPending (g : Game) :
    (clampPaddle g).ballResetPending = g.ballResetPending := by
  simp only [clampPaddle]; repeat' (first | rfl | split)

@[simp] lemma clampPaddle_lastFrameTime (g : Game) :
    (clampPaddle g).lastFrameTime = g.lastFrameTime := by
  simp only [clampPaddle]; repeat' (first | rfl | split)

@[simp] lemma clampPaddle_paddle_width (g : Game) :
    (clampPaddle g).paddle.width = g.paddle.width := by
  simp only [clampPaddle]; repeat' (first | rfl | split)

@[simp] lemma clampPaddle_paddle_y (g : Game) :
    (clampPaddle g).paddle.y = g.paddle.y := by
  simp only [clampPaddle]; repeat' (first | rfl | split)

@[simp] lemma clampPaddle_paddle_velX (g : Game) :
    (clampPaddle g).paddle.velX = g.paddle.velX := by
  simp only [clampPaddle]; repeat' (first | rfl | split)

lemma clampPaddle_paddle_x (g : Game) :
    (clampPaddle g).paddle.x =
      if (if g.paddle.x ≤ 0 then (0 : ℚ) else g.paddle.x) ≥ windowWidthF - g.paddle.width
      then windowWidthF - g.paddle.width
      else if g.paddle.x ≤ 0 then (0 : ℚ) else g.paddle.x := by
  simp only [clampPaddle]; split <;> split <;> simp_all

@[simp] lemma lifeLoss_paddle (g : Game) (now : ℚ) :
    (lifeLoss g now).paddle = g.paddle := by
  simp only [lifeLoss]; repeat' (first | rfl | split)

@[simp] lemma lifeLoss_score (g : Game) (now : ℚ) :
    (lifeLoss g now).score = g.score := by
  simp only [lifeLoss]; repeat' (first | rfl | split)

@[simp] lemma lifeLoss_lastFrameTime (g : Game) (now : ℚ) :
    (lifeLoss g now).lastFrameTime = g.lastFrameTime := by
  simp only [lifeLoss]; repeat' (first | rfl | split)

lemma lifeLoss_noFall (g : Game) (now : ℚ)
    (h : ¬ g.ball.y + g.ball.height > windowHeightF) : lifeLoss g now = g := by
  simp only [lifeLoss]; rw [if_neg h]

lemma lifeLoss_pause (g : Game) (now : ℚ)
    (h : g.ball.y + g.ball.height > windowHeightF) (hl : g.lives - 1 > 0) :
    lifeLoss g now =
      { g with
        lives := g.lives - 1
        isPaused := true
        pauseStart := some now
        ball := { g.ball with
          x := windowWidthF / 2 - g.ball.width / 2
          y := windowHeightF / 2 - g.ball.height / 2
          velX := 0, velY := 0 } } := by
  simp only [lifeLoss]; rw [if_pos h, if_pos hl]

lemma lifeLoss_gameOver (g : Game) (now : ℚ)
    (h : g.ball.y + g.ball.height > windowHeightF) (hl : ¬ g.lives - 1 > 0) :
    lifeLoss g now = { g with lives := g.lives - 1, gameIsRunning := false } := by
  simp only [lifeLoss]; rw [if_pos h, if_neg hl]

/-- When not paused and no reset is pending, `update` runs exactly the physics
part. -/
lemma update_reaches_physics (g : Game) (now : ℚ)
    (hp : g.isPaused = false) (hr : g.ballResetPending = false) :
    update g now = updatePhysics g now := by
  simp [update, updateRest, hp, hr]

lemma updatePhysics_eq (g : Game) (now : ℚ) :
    updatePhysics g now = lifeLoss (physicsPipeline g now) now := rfl

@[simp] lemma integratedState_ball_x (g : Game) (now : ℚ) :
    (integratedState g now).ball.x = g.ball.x + g.ball.velX * (now - g.lastFrameTime) := rfl

@[simp] lemma integratedState_ball_y (g : Game) (now : ℚ) :
    (integratedState g now).ball.y = g.ball.y + g.ball.velY * (now - g.lastFrameTime) := rfl

@[simp] lemma integratedState_ball_width (g : Game) (now : ℚ) :
    (integratedState g now).ball.width = g.ball.width := rfl

@[simp] lemma integratedState_ball_height (g : Game) (now : ℚ) :
    (integratedState g now).ball.height = g.ball.height := rfl

@[simp] lemma integratedState_ball_velX (g : Game) (now : ℚ) :
    (integratedState g now).ball.velX = g.ball.velX := rfl

@[simp] lemma integratedState_ball_velY (g : Game) (now : ℚ) :
    (integratedState g now).ball.velY = g.ball.velY := rfl

@[simp] lemma integratedState_paddle_x (g : Game) (now : ℚ) :
    (integratedState g now).paddle.x
      = g.paddle.x + g.paddle.velX * (now - g.lastFrameTime) := rfl

@[simp] lemma integratedState_paddle_width (g : Game) (now : ℚ) :
    (integratedState g now).paddle.width = g.paddle.width := rfl

@[simp] lemma integratedState_paddle_y (g : Game) (now : ℚ) :
    (integratedState g now).paddle.y = g.paddle.y := rfl

@[simp] lemma integratedState_lives (g : Game) (now : ℚ) :
    (integratedState g now).lives = g.lives := rfl

@[simp] lemma integratedState_score (g : Game) (now : ℚ) :
    (integratedState g now).score = g.score := rfl

@[simp] lemma integratedState_isPaused (g : Game) (now : ℚ) :
    (integratedState g now).isPaused = g.isPaused := rfl

@[simp] lemma integratedState_pauseStart (g : Game) (now : ℚ) :
    (integratedState g now).pauseStart = g.pauseStart := rfl

@[simp] lemma integratedState_gameIsRunning (g : Game) (now : ℚ) :
    (integratedState g now).gameIsRunning = g.gameIsRunning := rfl

@[simp] lemma integratedState_ballResetPending (g : Game) (now : ℚ) :
    (integratedState g now).ballResetPending = g.ballResetPending := rfl

@[simp] lemma integratedState_lastFrameTime (g : Game) (now : ℚ) :
    (integratedState g now).lastFrameTime = now := rfl

@[simp] lemma physicsPipeline_ball_x (g : Game) (now : ℚ) :
    (physicsPipeline g now).ball.x = (integratedState g now).ball.x := by
  simp [physicsPipeline]

@[simp] lemma physicsPipeline_ball_y (g : Game) (now : ℚ) :
    (physicsPipeline g now).ball.y = (integratedState g now).ball.y := by
  simp [physicsPipeline]

@[simp] lemma physicsPipeline_ball_width (g : Game) (now : ℚ) :
    (physicsPipeline g now).ball.width = g.ball.width := by
  simp [physicsPipeline]

@[simp] lemma physicsPipeline_ball_height (g : Game) (now : ℚ) :
    (physicsPipeline g now).ball.height = g.ball.height := by
  simp [physicsPipeline]

@[simp] lemma physicsPipeline_lives (g : Game) (now : ℚ) :
    (physicsPipeline g now).lives = g.lives := by
  simp [physicsPipeline]

@[simp] lemma physicsPipeline_isPaused (g : Game) (now : ℚ) :
    (physicsPipeline g now).isPaused = g.isPaused := by
  simp [physicsPipeline]

@[simp] lemma physicsPipeline_pauseStart (g : Game) (now : ℚ) :
    (physicsPipeline g now).pauseStart = g.pauseStart := by
  simp [physicsPipeline]

@[simp] lemma physicsPipeline_gameIsRunning (g : Game) (now : ℚ) :
    (physicsPipeline g now).gameIsRunning = g.gameIsRunning := by
  simp [physicsPipeline]

@[simp] lemma physicsPipeline_ballResetPending (g : Game) (now : ℚ) :
    (physicsPipeline g now).ballResetPending = g.ballResetPending := by
  simp [physicsPipeline]

lemma paddleHit_wallCollide (g : Game) :
    paddleHit (wallCollide g) ↔ paddleHit g := by
  unfold paddleHit; simp

lemma physicsPipeline_score (g : Game) (now : ℚ) :
    (physicsPipeline g now).score =
      if paddleHit (integratedState g now) then g.score + 1 else g.score := by
  unfold physicsPipeline
  rw [clampPaddle_score, paddleCollide_score]
  simp only [paddleHit_wallCollide, wallCollide_score, integratedState_score]

@[simp] lemma process_input_isPaused (g : Game) (a b c : Bool) :
    (process_input g a b c).isPaused = g.isPaused := by
  simp only [process_input]; repeat' (first | rfl | split)

@[simp] lemma process_input_pauseStart (g : Game) (a b c : Bool) :
    (process_input g a b c).pauseStart = g.pauseStart := by
  simp only [process_input]; repeat' (first | rfl | split)

/-- One qualifying frame adds exactly one point. -/
lemma score_step (g : Game) (now : ℚ) (h : overlapFrame g now) :
    (update g now).score = g.score + 1 := by
  obtain ⟨hp, hr, hhit⟩ := h
  rw [update_reaches_physics g now hp hr, updatePhysics_eq]
  rw [lifeLoss_score, physicsPipeline_score, if_pos hhit]

/-- `update` preserves the pause-flag/timestamp agreement. -/
lemma pauseInv_update (g : Game) (now : ℚ) (h : pauseInv g) :
    pauseInv (update g now) := by
  by_cases hp : g.isPaused = true
  · rcases hps : g.pauseStart with _ | s
    · exact absurd (h.mp hp) (by rw [hps]; simp)
    · unfold update
      rw [hp, hps]
      simp only [if_true]
      by_cases he : now - s ≥ pauseDuration
      · rw [if_pos he]
        simp [updateRest, reset_ball, pauseInv]
      · rw [if_neg he]
        exact h
  · have hp' : g.isPaused = false := by simpa using hp
    have hroute : update g now = updateRest g now := by
      unfold update; rw [hp']; simp
    rw [hroute]
    by_cases hr : g.ballResetPending = true
    · unfold updateRest
      rw [hr]
      simpa [pauseInv] using h
    · have hr' : g.ballResetPending = false := by simpa using hr
      unfold updateRest
      rw [hr']
      simp only [Bool.false_eq_true, if_false]
      rw [updatePhysics_eq]
      by_cases hfall :
          (physicsPipeline g now).ball.y + (physicsPipeline g now).ball.height > windowHeightF
      · by_cases hl : (physicsPipeline g now).lives - 1 > 0
        · rw [lifeLoss_pause _ _ hfall hl]
          simp [pauseInv]
        · rw [lifeLoss_gameOver _ _ hfall hl]
          simpa [pauseInv] using h
      · rw [lifeLoss_noFall _ _ hfall]
        simpa [pauseInv] using h

/-! ### Helper lemmas about the renderer -/

@[simp] lemma clearBuffer_len (b : Buffer) : (clearBuffer b).len = b.len := rfl

@[simp] lemma clearBuffer_data (b : Buffer) (j : ℕ) : (clearBuffer b).data j = 0 := rfl

lemma guardedWrite_eq (b : Buffer) (i : ℕ) :
    guardedWrite b i = some (guardedWriteT b i) := by
  unfold guardedWrite setBuf guardedWriteT
  split_ifs <;> rfl

lemma foldl_bind_some {α : Type} (f : Buffer → α → Option Buffer) (fT : Buffer → α → Buffer)
    (hf : ∀ b a, f b a = some (fT b a)) :
    ∀ (l : List α) (b : Buffer),
      l.foldl (fun ob a => ob.bind (fun bu => f bu a)) (some b) = some (l.foldl fT b) := by
  intro l
  induction l with
  | nil => intro b; rfl
  | cons a l ih =>
    intro b
    rw [List.foldl_cons, List.foldl_cons]
    have h1 : (some b).bind (fun bu => f bu a) = some (fT b a) := by
      simp only [Option.some_bind, hf]
    rw [h1]
    exact ih (fT b a)

lemma foldl_bind_none {α : Type} (f : Buffer → α → Option Buffer) (l : List α) :
    l.foldl (fun ob a => ob.bind (fun bu => f bu a)) none = none := by
  induction l with
  | nil => rfl
  | cons a l ih => simpa using ih

lemma writeRow_eq (x0 y0 w y : ℕ) (b : Buffer) :
    (List.range w).foldl (fun ob2 x =>
        ob2.bind (fun bu => guardedWrite bu ((y0 + y) * windowWidth + (x0 + x)))) (some b)
      = some (writeRowT x0 y0 w y b) := by
  unfold writeRowT
  exact foldl_bind_some _ _ (fun bu x => guardedWrite_eq bu _) _ b

lemma renderRect_eq (x0 y0 w h : ℕ) (b : Buffer) :
    renderRect x0 y0 w h b = some (renderRectT x0 y0 w h b) := by
  unfold renderRect renderRectT
  have hstep : (fun (ob : Option Buffer) (y : ℕ) =>
        (List.range w).foldl (fun ob2 x =>
          ob2.bind (fun bu => guardedWrite bu ((y0 + y) * windowWidth + (x0 + x)))) ob)
      = fun (ob : Option Buffer) (y : ℕ) =>
        ob.bind (fun bu => some (writeRowT x0 y0 w y bu)) := by
    funext ob y
    cases ob with
    | none => simpa using foldl_bind_none _ _
    | some bu => simpa using writeRow_eq x0 y0 w y bu
  rw [hstep]
  exact foldl_bind_some _ _ (fun bu y => rfl) _ b

lemma render_eq (g : Game) (b : Buffer) : render g b = some (renderT g b) := by
  unfold render renderT
  show (renderRect (ratToUsize g.ball.x) (ratToUsize g.ball.y)
      (ratToUsize g.ball.width) (ratToUsize g.ball.height) (clearBuffer b)).bind
    (renderRect (ratToUsize g.paddle.x) (ratToUsize g.paddle.y)
      (ratToUsize g.paddle.width) (ratToUsize g.paddle.height)) = _
  rw [renderRect_eq, Option.some_bind, renderRect_eq]

@[simp] lemma guardedWriteT_len (b : Buffer) (i : ℕ) :
    (guardedWriteT b i).len = b.len := by
  unfold guardedWriteT; split <;> rfl

lemma guardedWriteT_data (b : Buffer) (i j : ℕ) :
    (guardedWriteT b i).data j =
      if j = i ∧ i < b.len then 0xFFFFFFFF else b.data j := by
  unfold guardedWriteT
  by_cases h : i < b.len
  · rw [if_pos h]
    by_cases hj : j = i
    · rw [if_pos ⟨hj, h⟩]; simp [hj]
    · rw [if_neg (fun hc => hj hc.1)]; simp [hj]
  · rw [if_neg h, if_neg (fun hc => h hc.2)]

lemma writeRowT_succ (x0 y0 n y : ℕ) (b : Buffer) :
    writeRowT x0 y0 (n + 1) y b
      = guardedWriteT (writeRowT x0 y0 n y b) ((y0 + y) * windowWidth + (x0 + n)) := by
  unfold writeRowT
  rw [List.range_succ, List.foldl_append]
  rfl

@[simp] lemma writeRowT_len (x0 y0 w y : ℕ) (b : Buffer) :
    (writeRowT x0 y0 w y b).len = b.len := by
  induction w with
  | zero => rfl
  | succ n ih => rw [writeRowT_succ, guardedWriteT_len, ih]

lemma writeRowT_data (x0 y0 w y : ℕ) (b : Buffer) (j : ℕ) :
    (writeRowT x0 y0 w y b).data j =
      if hitRow x0 y0 y w j ∧ j < b.len then 0xFFFFFFFF else b.data j := by
  induction w with
  | zero =>
    rw [if_neg]
    · rfl
    · rintro ⟨⟨h1, h2⟩, h3⟩; omega
  | succ n ih =>
    rw [writeRowT_succ, guardedWriteT_data, writeRowT_len, ih]
    split_ifs <;>
      first
        | rfl
        | (exfalso; simp only [hitRow, windowWidth] at *; omega)

lemma renderRectT_succ (x0 y0 w n : ℕ) (b : Buffer) :
    renderRectT x0 y0 w (n + 1) b = writeRowT x0 y0 w n (renderRectT x0 y0 w n b) := by
  unfold renderRectT
  rw [List.range_succ, List.foldl_append]
  rfl

@[simp] lemma renderRectT_len (x0 y0 w h : ℕ) (b : Buffer) :
    (renderRectT x0 y0 w h b).len = b.len := by
  induction h with
  | zero => rfl
  | succ n ih => rw [renderRectT_succ, writeRowT_len, ih]

lemma hitRect_succ (x0 y0 w n j : ℕ) :
    hitRect x0 y0 w (n + 1) j ↔ hitRow x0 y0 n w j ∨ hitRect x0 y0 w n j := by
  unfold hitRect
  constructor
  · rintro ⟨y, hy, hrow⟩
    rcases Nat.lt_succ_iff_lt_or_eq.mp hy with h | h
    · exact Or.inr ⟨y, h, hrow⟩
    · subst h; exact Or.inl hrow
  · rintro (h | ⟨y, hy, hrow⟩)
    · exact ⟨n, Nat.lt_succ_self n, h⟩
    · exact ⟨y, Nat.lt_succ_of_lt hy, hrow⟩

lemma renderRectT_data (x0 y0 w h : ℕ) (b : Buffer) (j : ℕ) :
    (renderRectT x0 y0 w h b).data j =
      if hitRect x0 y0 w h j ∧ j < b.len then 0xFFFFFFFF else b.data j := by
  induction h with
  | zero =>
    rw [if_neg]
    · rfl
    · rintro ⟨⟨y, hy, hrow⟩, h3⟩; omega
  | succ n ih =>
    rw [renderRectT_succ, writeRowT_data, renderRectT_len, ih]
    simp only [hitRect_succ]
    split_ifs <;> first | rfl | tauto

/-- Translation between linear indices hit by the rasterization loop and
row/column rectangle membership, valid when the truncated rectangle does not
stick out past the right viewport edge. -/
lemma hitRect_iff_pix (x0 y0 w h j : ℕ)
    (hw : x0 + w ≤ windowWidth) (hj : j < windowWidth * windowHeight) :
    hitRect x0 y0 w h j ↔
      (y0 ≤ j / windowWidth ∧ j / windowWidth < y0 + h
        ∧ x0 ≤ j % windowWidth ∧ j % windowWidth < x0 + w) := by
  unfold hitRect hitRow windowWidth windowHeight at *
  constructor
  · rintro ⟨y, hy, h1, h2⟩
    omega
  · rintro ⟨h1, h2, h3, h4⟩
    refine ⟨j / 800 - y0, by omega, by omega, by omega⟩

lemma renderT_data (g : Game) (b : Buffer) (j : ℕ) :
    (renderT g b).data j =
      if hitRect (ratToUsize g.paddle.x) (ratToUsize g.paddle.y)
          (ratToUsize g.paddle.width) (ratToUsize g.paddle.height) j ∧ j < b.len
      then 0xFFFFFFFF
      else if hitRect (ratToUsize g.ball.x) (ratToUsize g.ball.y)
          (ratToUsize g.ball.width) (ratToUsize g.ball.height) j ∧ j < b.len
      then 0xFFFFFFFF
      else 0 := by
  unfold renderT
  rw [renderRectT_data, renderRectT_len, clearBuffer_len, renderRectT_data,
    clearBuffer_len, clearBuffer_data]

/-! ### Claim theorems -/

/-- Claim C1: on an update call that reaches the physics phase, if after
integration the ball's bottom edge exceeds the viewport height, lives drops by
exactly one; when the decremented lives are positive the game pauses, records
`now` as pause start, centers the ball and zeroes its velocity; when the
decremented lives are zero the running flag is cleared and no pause, recenter
or velocity change happens. -/
theorem C1_life_loss (g : Game) (now : ℚ)
    (hp : g.isPaused = false) (hr : g.ballResetPending = false)
    (hfall : (integratedState g now).ball.y + (integratedState g now).ball.height
      > windowHeightF) :
    (update g now).lives = g.lives - 1
    ∧ (g.lives - 1 > 0 →
        update g now =
          { physicsPipeline g now with
            lives := g.lives - 1
            isPaused := true
            pauseStart := some now
            ball := { (physicsPipeline g now).ball with
              x := windowWidthF / 2 - (physicsPipeline g now).ball.width / 2
              y := windowHeightF / 2 - (physicsPipeline g now).ball.height / 2
              velX := 0
              velY := 0 } })
    ∧ (g.lives - 1 = 0 →
        update g now = { physicsPipeline g now with lives := 0, gameIsRunning := false }) := by
  have hroute : update g now = lifeLoss (physicsPipeline g now) now := by
    rw [update_reaches_physics g now hp hr, updatePhysics_eq]
  have hfall' : (physicsPipeline g now).ball.y + (physicsPipeline g now).ball.height
      > windowHeightF := by simpa using hfall
  refine ⟨?_, ?_, ?_⟩
  · rw [hroute]
    by_cases hl : (physicsPipeline g now).lives - 1 > 0
    · rw [lifeLoss_pause _ _ hfall' hl]; simp
    · rw [lifeLoss_gameOver _ _ hfall' hl]; simp
  · intro hl
    rw [hroute, lifeLoss_pause _ _ hfall' (by simpa using hl)]
    simp
  · intro hl
    rw [hroute, lifeLoss_gameOver _ _ hfall' (by simp [physicsPipeline_lives, hl])]
    simp [physicsPipeline_lives, hl]

/-- Witness for C1 at a concrete state with two lives and the ball past the
bottom edge. -/
theorem C1_life_loss_witness :
    c1Game.isPaused = false ∧ c1Game.ballResetPending = false
    ∧ ((integratedState c1Game 0).ball.y + (integratedState c1Game 0).ball.height
        > windowHeightF)
    ∧ ((update c1Game 0).lives = c1Game.lives - 1
      ∧ (c1Game.lives - 1 > 0 →
          update c1Game 0 =
            { physicsPipeline c1Game 0 with
              lives := c1Game.lives - 1
              isPaused := true
              pauseStart := some 0
              ball := { (physicsPipeline c1Game 0).ball with
                x := windowWidthF / 2 - (physicsPipeline c1Game 0).ball.width / 2
                y := windowHeightF / 2 - (physicsPipeline c1Game 0).ball.height / 2
                velX := 0
                velY := 0 } })
      ∧ (c1Game.lives - 1 = 0 →
          update c1Game 0 =
            { physicsPipeline c1Game 0 with lives := 0, gameIsRunning := false })) :=
  ⟨rfl, rfl, by decide, C1_life_loss c1Game 0 rfl rfl (by decide)⟩

/-- Claim C2 (amended): when an update call arrives at least the pause duration
after the recorded pause start, that same call clears the pause flag and the
timestamp, resets the ball to the viewport center with velocity (300,300), and
also consumes the reset-pending flag it set, leaving it false and resetting the
last-frame-time baseline to `now` with no integration; the immediately
following update call runs the physics phase again. -/
theorem C2_pause_expiry (g : Game) (now s : ℚ)
    (hp : g.isPaused = true) (hs : g.pauseStart = some s)
    (he : now - s ≥ pauseDuration) :
    update g now =
      { g with
        isPaused := false
        pauseStart := none
        ballResetPending := false
        lastFrameTime := now
        ball := { g.ball with
          x := windowWidthF / 2 - g.ball.width / 2
          y := windowHeightF / 2 - g.ball.height / 2
          velX := 300
          velY := 300 } }
    ∧ ∀ now2 : ℚ, update (update g now) now2 = updatePhysics (update g now) now2 := by
  have h1 : update g now =
      { g with
        isPaused := false
        pauseStart := none
        ballResetPending := false
        lastFrameTime := now
        ball := { g.ball with
          x := windowWidthF / 2 - g.ball.width / 2
          y := windowHeightF / 2 - g.ball.height / 2
          velX := 300
          velY := 300 } } := by
    unfold update
    rw [hp, hs]
    simp only [if_true]
    rw [if_pos he]
    rfl
  exact ⟨h1, fun now2 =>
    update_reaches_physics _ _ (by rw [h1]) (by rw [h1])⟩

/-- Counterexample to C2 as stated: after the transition call the reset-pending
flag is already false (not left set for the next call), and the immediately
following update call does integrate the ball's position. -/
theorem C2_counterexample :
    (update c2Game (21/10)).ballResetPending = false
    ∧ (update (update c2Game (21/10)) (22/10)).ball.x ≠ (update c2Game (21/10)).ball.x := by
  constructor
  · decide
  · decide

/-- Witness for the amended C2 at a concrete paused state, 2.1 seconds after
the pause start. -/
theorem C2_pause_expiry_witness :
    c2Game.isPaused = true ∧ c2Game.pauseStart = some 0
    ∧ (21/10 : ℚ) - 0 ≥ pauseDuration
    ∧ (update c2Game (21/10) =
        { c2Game with
          isPaused := false
          pauseStart := none
          ballResetPending := false
          lastFrameTime := 21/10
          ball := { c2Game.ball with
            x := windowWidthF / 2 - c2Game.ball.width / 2
            y := windowHeightF / 2 - c2Game.ball.height / 2
            velX := 300
            velY := 300 } }
      ∧ ∀ now2 : ℚ, update (update c2Game (21/10)) now2
          = updatePhysics (update c2Game (21/10)) now2) :=
  ⟨rfl, rfl, by decide, C2_pause_expiry c2Game (21/10) 0 rfl rfl (by decide)⟩

/-- Claim C3: a physics-phase update call that finds the ball overlapping the
paddle negates the ball's vertical velocity in the collision step and adds
exactly one point, with no guard on the previous position or direction; N
consecutive qualifying calls add exactly N points. -/
theorem C3_paddle_rescore (g : Game) (now : ℚ)
    (hp : g.isPaused = false) (hr : g.ballResetPending = false)
    (hhit : paddleHit (integratedState g now)) :
    (update g now).score = g.score + 1
    ∧ (paddleCollide (wallCollide (integratedState g now))).ball.velY
        = -(wallCollide (integratedState g now)).ball.velY
    ∧ ∀ (t : ℕ → ℚ) (N : ℕ),
        (∀ i, i < N → overlapFrame (iterUpdate g t i) (t i)) →
        (iterUpdate g t N).score = g.score + N := by
  refine ⟨score_step g now ⟨hp, hr, hhit⟩, ?_, ?_⟩
  · rw [paddleCollide_velY, if_pos ((paddleHit_wallCollide _).mpr hhit)]
  · intro t N h
    induction N with
    | zero => simp [iterUpdate]
    | succ n ih =>
      have hstep := score_step _ _ (h n (Nat.lt_succ_self n))
      show (update (iterUpdate g t n) (t n)).score = _
      rw [hstep, ih (fun i hi => h i (Nat.lt_succ_of_lt hi))]
      push_cast
      ring

/-- Witness for C3: a ball resting on the paddle scores on each of two
consecutive zero-delta frames. -/
theorem C3_paddle_rescore_witness :
    c3Game.isPaused = false ∧ c3Game.ballResetPending = false
    ∧ paddleHit (integratedState c3Game 0)
    ∧ (update c3Game 0).score = c3Game.score + 1
    ∧ (iterUpdate c3Game (fun _ => 0) 2).score = c3Game.score + 2 :=
  have h := C3_paddle_rescore c3Game 0 rfl rfl (by decide)
  ⟨rfl, rfl, by decide, h.1, by
    have h2 := h.2.2 (fun _ => 0) 2 (by
      intro i hi
      interval_cases i
      · exact (by decide)
      · exact (by decide))
    exact_mod_cast h2⟩

/-- Claim C4: the wall-collision step of a physics-phase update call negates
the horizontal velocity exactly once when the integrated ball touches either
vertical wall (inclusive comparisons, no double flip, no position correction),
independently negates the vertical velocity when the top edge is at or above 0,
and when no life is lost in the same call the final state keeps the integrated
x position and the once-flipped horizontal velocity. -/
theorem C4_wall_bounce (g : Game) (now : ℚ)
    (hp : g.isPaused = false) (hr : g.ballResetPending = false) :
    update g now = lifeLoss (physicsPipeline g now) now
    ∧ ((integratedState g now).ball.x ≤ 0
        ∨ (integratedState g now).ball.x + (integratedState g now).ball.width
            ≥ windowWidthF →
        (wallCollide (integratedState g now)).ball.velX
            = -(integratedState g now).ball.velX
        ∧ (wallCollide (integratedState g now)).ball.x = (integratedState g now).ball.x)
    ∧ ((integratedState g now).ball.y ≤ 0 →
        (wallCollide (integratedState g now)).ball.velY
            = -(integratedState g now).ball.velY)
    ∧ (¬ (integratedState g now).ball.y + (integratedState g now).ball.height
          > windowHeightF →
        (update g now).ball.x = (integratedState g now).ball.x
        ∧ (update g now).ball.velX = (wallCollide (integratedState g now)).ball.velX) := by
  have hroute : update g now = lifeLoss (physicsPipeline g now) now := by
    rw [update_reaches_physics g now hp hr, updatePhysics_eq]
  refine ⟨hroute, ?_, ?_, ?_⟩
  · intro hcond
    exact ⟨by rw [wallCollide_velX, if_pos hcond], wallCollide_ball_x _⟩
  · intro hcond
    rw [wallCollide_velY, if_pos hcond]
  · intro hnf
    have hnf' : ¬ (physicsPipeline g now).ball.y + (physicsPipeline g now).ball.height
        > windowHeightF := by simpa using hnf
    rw [hroute, lifeLoss_noFall _ _ hnf']
    exact ⟨by simp [physicsPipeline], by simp [physicsPipeline]⟩

/-- Witness for C4: ball exactly flush with the left wall (equality triggers
the bounce), no life loss in the call. -/
theorem C4_wall_bounce_witness :
    (integratedState c4Game 0).ball.x ≤ 0
    ∧ (wallCollide (integratedState c4Game 0)).ball.velX
        = -(integratedState c4Game 0).ball.velX
    ∧ (wallCollide (integratedState c4Game 0)).ball.x = (integratedState c4Game 0).ball.x
    ∧ (update c4Game 0).ball.x = (integratedState c4Game 0).ball.x
    ∧ (update c4Game 0).ball.velX = (wallCollide (integratedState c4Game 0)).ball.velX :=
  have h := C4_wall_bounce c4Game 0 rfl rfl
  ⟨by decide, (h.2.1 (Or.inl (by decide))).1, (h.2.1 (Or.inl (by decide))).2,
   (h.2.2.2 (by decide)).1, (h.2.2.2 (by decide)).2⟩

/-- Claim C5: a physics-phase update call leaves the paddle's x inside
`[0, width − paddle width]`; an integrated x strictly below 0 lands exactly on
0, one strictly above the upper bound lands exactly on the bound. -/
theorem C5_paddle_clamp (g : Game) (now : ℚ)
    (hp : g.isPaused = false) (hr : g.ballResetPending = false)
    (hw0 : 0 ≤ g.paddle.width) (hw1 : g.paddle.width ≤ windowWidthF) :
    (0 ≤ (update g now).paddle.x
      ∧ (update g now).paddle.x ≤ windowWidthF - g.paddle.width)
    ∧ ((integratedState g now).paddle.x < 0 → (update g now).paddle.x = 0)
    ∧ ((integratedState g now).paddle.x > windowWidthF - g.paddle.width →
        (update g now).paddle.x = windowWidthF - g.paddle.width) := by
  have hpx : (update g now).paddle.x
      = (clampPaddle (paddleCollide (wallCollide (integratedState g now)))).paddle.x := by
    rw [update_reaches_physics g now hp hr, updatePhysics_eq, lifeLoss_paddle,
      physicsPipeline]
  have hPp : (paddleCollide (wallCollide (integratedState g now))).paddle
      = (integratedState g now).paddle := by simp
  rw [hpx, clampPaddle_paddle_x, hPp]
  simp only [integratedState_paddle_width]
  refine ⟨⟨?_, ?_⟩, ?_, ?_⟩
  · split_ifs <;> linarith
  · split_ifs <;> linarith
  · intro h; split_ifs <;> linarith
  · intro h; split_ifs <;> linarith

/-- Witness for C5: paddle integrated to x = −5 is clamped to exactly 0. -/
theorem C5_paddle_clamp_witness :
    (0 ≤ (update c5Game 0).paddle.x
      ∧ (update c5Game 0).paddle.x ≤ windowWidthF - c5Game.paddle.width)
    ∧ (integratedState c5Game 0).paddle.x < 0
    ∧ (update c5Game 0).paddle.x = 0 :=
  have h := C5_paddle_clamp c5Game 0 rfl rfl (by decide) (by decide)
  ⟨h.1, by decide, h.2.1 (by decide)⟩

/-- Claim C6: an update call made while paused, before the pause duration has
elapsed, changes nothing at all: the whole game state is returned unchanged. -/
theorem C6_paused_noop (g : Game) (now s : ℚ)
    (hp : g.isPaused = true) (hs : g.pauseStart = some s)
    (he : now - s < pauseDuration) :
    update g now = g := by
  unfold update
  rw [hp, hs]
  simp only [if_true]
  rw [if_neg (not_le.mpr he)]

/-- Witness for C6 at a concrete paused state one second into the pause. -/
theorem C6_paused_noop_witness :
    c6Game.isPaused = true ∧ c6Game.pauseStart = some 0
    ∧ (1 : ℚ) - 0 < pauseDuration
    ∧ update c6Game 1 = c6Game :=
  ⟨rfl, rfl, by decide, C6_paused_noop c6Game 1 0 rfl rfl (by decide)⟩

/-- Claim C8: input processing clears the running flag whenever Escape is held,
independently of the pause flag; and while paused it leaves the whole state —
in particular the paddle's horizontal velocity — unchanged except for that
possible running-flag clear. -/
theorem C8_input_priority (g : Game) (escKey leftKey rightKey : Bool) :
    (escKey = true → (process_input g escKey leftKey rightKey).gameIsRunning = false)
    ∧ (g.isPaused = true →
        process_input g escKey leftKey rightKey =
          { g with gameIsRunning := if escKey then false else g.gameIsRunning }) := by
  constructor
  · intro he
    subst he
    simp only [process_input, eq_self_iff_true, if_true]
    repeat' (first | rfl | split)
  · intro hpause
    cases escKey
    · have h0 : process_input g false leftKey rightKey = g := by
        simp only [process_input, Bool.false_eq_true, if_false]
        rw [if_pos hpause]
      exact h0.trans rfl
    · have h0 : process_input g true leftKey rightKey
          = { g with gameIsRunning := false } := by
        simp only [process_input, eq_self_iff_true, if_true]
        rw [if_pos
          (show ({ g with gameIsRunning := false } : Game).isPaused = true from hpause)]
      exact h0.trans rfl

/-- Witness for C8: Escape held while paused clears the running flag and
changes nothing else. -/
theorem C8_input_priority_witness :
    (process_input c8Game true false false).gameIsRunning = false
    ∧ process_input c8Game true false false =
        { c8Game with gameIsRunning := if true then false else c8Game.gameIsRunning } :=
  ⟨(C8_input_priority c8Game true false false).1 rfl,
   (C8_input_priority c8Game true false false).2 rfl⟩

/-- Claim C9: every buffer write in render is guarded by an index check, so
for every game state — including states whose rectangles extend past the
viewport — rendering never performs an out-of-range access: it always succeeds
(out-of-bounds pixels are silently skipped via the total skip-semantics result)
and preserves the buffer length. -/
theorem C9_render_in_bounds (g : Game) (b : Buffer) :
    render g b = some (renderT g b) ∧ (renderT g b).len = b.len := by
  refine ⟨render_eq g b, ?_⟩
  unfold renderT
  rw [renderRectT_len, renderRectT_len, clearBuffer_len]

/-- Claim C7 (amended): when the truncated ball and paddle rectangles do not
stick out past the right viewport edge, the rendered buffer holds the
foreground color exactly at the in-bounds pixels of the two rectangles and the
background color 0 everywhere else, and rendering the same state twice (from
any buffer of the same length) produces identical output. -/
theorem C7_render_contents (g : Game) (b : Buffer)
    (hlen : b.len = windowWidth * windowHeight)
    (hball : ratToUsize g.ball.x + ratToUsize g.ball.width ≤ windowWidth)
    (hpad : ratToUsize g.paddle.x + ratToUsize g.paddle.width ≤ windowWidth) :
    render g b = some (renderT g b)
    ∧ (∀ j, j < windowWidth * windowHeight →
        ((pixInRect g.ball (j / windowWidth) (j % windowWidth)
            ∨ pixInRect g.paddle (j / windowWidth) (j % windowWidth)) →
          (renderT g b).data j = 0xFFFFFFFF))
    ∧ (∀ j, j < windowWidth * windowHeight →
        (¬ (pixInRect g.ball (j / windowWidth) (j % windowWidth)
            ∨ pixInRect g.paddle (j / windowWidth) (j % windowWidth)) →
          (renderT g b).data j = 0))
    ∧ (∀ b2 : Buffer, b2.len = b.len → render g b2 = render g b) := by
  have hBall : ∀ j, j < windowWidth * windowHeight →
      (hitRect (ratToUsize g.ball.x) (ratToUsize g.ball.y) (ratToUsize g.ball.width)
          (ratToUsize g.ball.height) j
        ↔ pixInRect g.ball (j / windowWidth) (j % windowWidth)) := by
    intro j hj
    rw [hitRect_iff_pix _ _ _ _ j hball hj]
    unfold pixInRect
    tauto
  have hPad : ∀ j, j < windowWidth * windowHeight →
      (hitRect (ratToUsize g.paddle.x) (ratToUsize g.paddle.y) (ratToUsize g.paddle.width)
          (ratToUsize g.paddle.height) j
        ↔ pixInRect g.paddle (j / windowWidth) (j % windowWidth)) := by
    intro j hj
    rw [hitRect_iff_pix _ _ _ _ j hpad hj]
    unfold pixInRect
    tauto
  refine ⟨render_eq g b, ?_, ?_, ?_⟩
  · intro j hj hmem
    rw [renderT_data, hlen]
    rcases hmem with hm | hm
    · by_cases hp : hitRect (ratToUsize g.paddle.x) (ratToUsize g.paddle.y)
          (ratToUsize g.paddle.width) (ratToUsize g.paddle.height) j
          ∧ j < windowWidth * windowHeight
      · rw [if_pos hp]
      · rw [if_neg hp, if_pos ⟨(hBall j hj).mpr hm, hj⟩]
    · rw [if_pos ⟨(hPad j hj).mpr hm, hj⟩]
  · intro j hj hmem
    rw [renderT_data, hlen,
      if_neg (fun hc => hmem (Or.inr ((hPad j hj).mp hc.1))),
      if_neg (fun hc => hmem (Or.inl ((hBall j hj).mp hc.1)))]
  · intro b2 h2
    unfold render
    have hcl : clearBuffer b2 = clearBuffer b := by unfold clearBuffer; rw [h2]
    rw [hcl]

/-- Counterexample to C7 as stated: at a state whose ball rectangle crosses the
right viewport edge, the rasterization index wraps into the next row, so an
in-bounds index whose pixel lies outside both rectangles still receives the
foreground color instead of the background color. -/
theorem C7_counterexample :
    (render c7Game initBuffer).map (fun bb => bb.data 800) = some 0xFFFFFFFF
    ∧ (800 : ℕ) < windowWidth * windowHeight
    ∧ ¬ pixInRect c7Game.ball (800 / windowWidth) (800 % windowWidth)
    ∧ ¬ pixInRect c7Game.paddle (800 / windowWidth) (800 % windowWidth) := by
  refine ⟨?_, by decide, by decide, by decide⟩
  have hnp : ¬ (hitRect (ratToUsize c7Game.paddle.x) (ratToUsize c7Game.paddle.y)
      (ratToUsize c7Game.paddle.width) (ratToUsize c7Game.paddle.height) 800
      ∧ 800 < initBuffer.len) := by decide
  have hpb : hitRect (ratToUsize c7Game.ball.x) (ratToUsize c7Game.ball.y)
      (ratToUsize c7Game.ball.width) (ratToUsize c7Game.ball.height) 800
      ∧ 800 < initBuffer.len := by decide
  rw [render_eq]
  show some ((renderT c7Game initBuffer).data 800) = some 0xFFFFFFFF
  rw [renderT_data, if_neg hnp, if_pos hpb]

/-- Witness for the amended C7 at the initial state and the freshly allocated
buffer. -/
theorem C7_render_contents_witness :
    initBuffer.len = windowWidth * windowHeight
    ∧ ratToUsize (initGame 0).ball.x + ratToUsize (initGame 0).ball.width ≤ windowWidth
    ∧ ratToUsize (initGame 0).paddle.x + ratToUsize (initGame 0).paddle.width
        ≤ windowWidth
    ∧ (render (initGame 0) initBuffer = some (renderT (initGame 0) initBuffer)
      ∧ (∀ j, j < windowWidth * windowHeight →
          ((pixInRect (initGame 0).ball (j / windowWidth) (j % windowWidth)
              ∨ pixInRect (initGame 0).paddle (j / windowWidth) (j % windowWidth)) →
            (renderT (initGame 0) initBuffer).data j = 0xFFFFFFFF))
      ∧ (∀ j, j < windowWidth * windowHeight →
          (¬ (pixInRect (initGame 0).ball (j / windowWidth) (j % windowWidth)
              ∨ pixInRect (initGame 0).paddle (j / windowWidth) (j % windowWidth)) →
            (renderT (initGame 0) initBuffer).data j = 0))
      ∧ (∀ b2 : Buffer, b2.len = initBuffer.len →
          render (initGame 0) b2 = render (initGame 0) initBuffer)) :=
  ⟨rfl, by decide, by decide,
   C7_render_contents (initGame 0) initBuffer rfl (by decide) (by decide)⟩

/-- Claim C10: in every state reachable from the initial game by input
processing and update calls, the pause flag is set exactly when a pause-start
timestamp is present. -/
theorem C10_pause_pair_invariant (g : Game) (h : Reachable g) : pauseInv g := by
  induction h with
  | init t0 => simp [pauseInv, initGame]
  | input g' a b c _ ih =>
    unfold pauseInv
    rw [process_input_isPaused, process_input_pauseStart]
    exact ih
  | upd g' now _ ih => exact pauseInv_update g' now ih

/-- Witness for C10 at the initial state. -/
theorem C10_pause_pair_invariant_witness : pauseInv (initGame 0) :=
  C10_pause_pair_invariant (initGame 0) (Reachable.init 0)

end Pong
